import Mathlib

/-!
Verification of the platform-configuration resolver embedded in
`conanfile.py` of libhal-stm32f1.

The recipe's decision logic is modelled shallowly:

* `linker_script_name` / `add_linker_scripts_to_link_flags` embed the method
  `add_linker_scripts_to_link_flags` (conanfile.py lines 47-58).  Python's
  list-index assignment `l[i] = c` raises `IndexError` when `i >= len(l)`,
  so it is modelled by `pySet`, returning `Option`.
* `is_me` embeds the `_is_me` property (lines 60-65).
* `package_info` embeds the method `package_info` (lines 67-76), returning the
  `cpp_info` fields it writes together with the build-environment defines.
* `get_safe`, `option_truthy` and `package_id` embed the method `package_id`
  (lines 78-80); the options record is an association list.  The guard
  `if self.info.options.get_safe("platform"):` applies Python/Conan
  truthiness to the looked-up option value: `None` (absent key) is falsy,
  and a Conan option value is falsy when its lowercased form is one of
  `""`, `"false"`, `"none"`, `"0"`, `"off"` (Conan's
  `_PackageOption.__bool__`).
-/

namespace Conanfile

/-- Python `os.path.join` as used in the recipe: both uses join a non-empty
relative or absolute first component with a non-empty relative second
component, which is concatenation with a single `/` separator. -/
def path_join (a b : String) : String := a ++ "/" ++ b

/-- Python list-index assignment `l[i] = c` for a non-negative index:
succeeds iff `i < len l`, otherwise raises `IndexError` (modelled as
`none`). -/
def pySet (l : List Char) (i : Nat) (c : Char) : Option (List Char) :=
  if i < l.length then some (l.set i c) else none

/-- Lines 48-53: `list(str(self.options.platform))`, the two index
assignments `linker_script_name[8] = 'x'`, `linker_script_name[9] = 'x'`,
and the re-join `"".join(linker_script_name)`. -/
def linker_script_name (platform : String) : Option String := do
  let l1 ← pySet platform.data 8 'x'
  let l2 ← pySet l1 9 'x'
  pure (String.mk l2)

/-- `add_linker_scripts_to_link_flags` (lines 47-58): derives the script base
name and sets `cpp_info.exelinkflags` to the `-L` search-path flag followed
by the `-T` script flag. -/
def add_linker_scripts_to_link_flags (platform package_folder : String) :
    Option (List String) := do
  let name ← linker_script_name platform
  pure ["-L" ++ path_join package_folder "linker_scripts",
        "-T" ++ path_join "libhal-stm32f1" (name ++ ".ld")]

/-- `_is_me` (lines 60-65): the platform string starts with `"stm32f1"` and
has length exactly 11.  Python's `str.startswith(pre)` is prefix-of on the
character sequences, embedded as `List.isPrefixOf` on the strings' data. -/
def is_me (platform : String) : Bool :=
  "stm32f1".data.isPrefixOf platform.data && platform.length == 11

/-- The `cpp_info` fields written by `package_info`. -/
structure CppInfo where
  libs : List String := []
  cmake_target_name : Option String := none
  exelinkflags : List String := []

/-- Everything `package_info` exposes to the host: the `cpp_info` fields and
the `buildenv_info` defines. -/
structure PackageInfoResult where
  cpp_info : CppInfo
  buildenv_defines : List (String × String) := []

/-- `package_info` (lines 67-76): always sets `libs` and the cmake target
name; when `settings.os == "baremetal"` and `_is_me` holds it additionally
derives the linker flags and defines `LIBHAL_PLATFORM` and
`LIBHAL_PLATFORM_LIBRARY`. -/
def package_info (os platform package_folder : String) :
    Option PackageInfoResult :=
  let cpp0 : CppInfo :=
    { libs := ["libhal-stm32f1"], cmake_target_name := some "libhal::stm32f1" }
  if os == "baremetal" && is_me platform then
    match add_linker_scripts_to_link_flags platform package_folder with
    | none => none
    | some flags =>
      some { cpp_info := { cpp0 with exelinkflags := flags },
             buildenv_defines := [("LIBHAL_PLATFORM", platform),
                                  ("LIBHAL_PLATFORM_LIBRARY", "stm32f1")] }
  else
    some { cpp_info := cpp0 }

/-- Conan's `options.get_safe(key)`: the option's value, or `None` (here
`none`) when the key is absent. -/
def get_safe (options : List (String × String)) (key : String) :
    Option String :=
  (options.find? (fun kv => kv.1 == key)).map (fun kv => kv.2)

/-- Python truthiness of the value `get_safe` returns, as the recipe's
`if self.info.options.get_safe("platform"):` evaluates it: `None` is falsy,
and a Conan option value is falsy when its lowercased form is one of `""`,
`"false"`, `"none"`, `"0"`, `"off"` (Conan's `_PackageOption.__bool__`
compares `value.lower()` against that list).  Lowercasing is embedded
character by character so that it is kernel-computable. -/
def option_truthy : Option String → Bool
  | none => false
  | some v =>
      !(["false", "none", "0", "off", ""].contains
          (String.mk (v.data.map Char.toLower)))

/-- `package_id` (lines 78-80): when the guard on `get_safe("platform")` is
truthy, `del self.info.options.platform` removes the `platform` entry from
the identity options; otherwise the record is left untouched. -/
def package_id (options : List (String × String)) : List (String × String) :=
  if option_truthy (get_safe options "platform") then
    options.filter (fun kv => kv.1 != "platform")
  else options

/-! ## Helper lemmas -/

lemma data_length (p : String) : p.data.length = p.length := rfl

lemma length_of_is_me (p : String) (h : is_me p = true) : p.length = 11 := by
  simp [is_me] at h
  exact h.2

lemma linker_script_name_of_len (p : String) (h : 10 ≤ p.length) :
    linker_script_name p = some (String.mk ((p.data.set 8 'x').set 9 'x')) := by
  have h8 : 8 < p.length := by omega
  have h9 : 9 < p.length := by omega
  simp [linker_script_name, pySet, data_length, h8, h9]

lemma add_linker_scripts_of_len (p root : String) (h : 10 ≤ p.length) :
    add_linker_scripts_to_link_flags p root =
      some ["-L" ++ path_join root "linker_scripts",
            "-T" ++ path_join "libhal-stm32f1"
                      (String.mk ((p.data.set 8 'x').set 9 'x') ++ ".ld")] := by
  simp [add_linker_scripts_to_link_flags, linker_script_name_of_len p h]

lemma package_info_of_is_me (p root : String) (h : is_me p = true) :
    package_info "baremetal" p root =
      some ⟨{ libs := ["libhal-stm32f1"],
              cmake_target_name := some "libhal::stm32f1",
              exelinkflags :=
                ["-L" ++ path_join root "linker_scripts",
                 "-T" ++ path_join "libhal-stm32f1"
                           (String.mk ((p.data.set 8 'x').set 9 'x') ++ ".ld")] },
            [("LIBHAL_PLATFORM", p), ("LIBHAL_PLATFORM_LIBRARY", "stm32f1")]⟩ := by
  have hl := length_of_is_me p h
  have hadd := add_linker_scripts_of_len p root (by omega)
  simp [package_info, h, hadd]

lemma package_info_of_guard_false (os p root : String)
    (h : (os == "baremetal" && is_me p) = false) :
    package_info os p root =
      some ⟨{ libs := ["libhal-stm32f1"],
              cmake_target_name := some "libhal::stm32f1" }, []⟩ := by
  simp [package_info, h]

lemma get_safe_filter_platform (opts : List (String × String)) :
    get_safe (opts.filter fun kv => kv.1 != "platform") "platform" = none := by
  have hfind : (opts.filter fun kv => kv.1 != "platform").find?
      (fun kv => kv.1 == "platform") = none := by
    rw [List.find?_eq_none]
    intro x hx
    have hmem := (List.mem_filter.mp hx).2
    simp only [bne_iff_ne, ne_eq] at hmem
    simpa using hmem
  simp [get_safe, hfind]

lemma get_safe_filter_other (opts : List (String × String)) (k : String)
    (hk : k ≠ "platform") :
    get_safe (opts.filter fun kv => kv.1 != "platform") k = get_safe opts k := by
  induction opts with
  | nil => rfl
  | cons kv rest ih =>
    simp only [get_safe] at ih ⊢
    rw [List.filter_cons]
    rcases eq_or_ne kv.1 "platform" with hkv | hkv
    · rw [if_neg (by simp [hkv])]
      have h2 : (kv.1 == k) = false := by
        simp only [beq_eq_false_iff_ne, ne_eq]
        exact fun e => hk (e.symm.trans hkv)
      simp only [List.find?_cons, h2]
      exact ih
    · rw [if_pos (by simpa using hkv)]
      cases h2 : (kv.1 == k) with
      | true => simp only [List.find?_cons, h2]
      | false =>
        simp only [List.find?_cons, h2]
        exact ih

/-! ## Claims -/

/-- C1, counterexample: in `"stm32f103c8"` the characters at indices 8 and 9
are `'3'` and `'c'`, so the derived script base name is `"stm32f10xx8"`, not
the claimed `"stm32xxc8"`, and the derived flags differ from the claimed
ones. -/
theorem C1_counterexample :
    linker_script_name "stm32f103c8" = some "stm32f10xx8" ∧
    ("stm32f10xx8" : String) ≠ "stm32xxc8" ∧
    add_linker_scripts_to_link_flags "stm32f103c8" "/pkg" ≠
      some ["-L/pkg/linker_scripts", "-Tlibhal-stm32f1/stm32xxc8.ld"] :=
  ⟨rfl, by decide, by decide⟩

/-- C1, amended: for platform `"stm32f103c8"` and package root `"/pkg"` the
derivation yields the search-path flag `-L/pkg/linker_scripts` and the
script flag `-Tlibhal-stm32f1/stm32f10xx8.ld`: the derived script base name
is `"stm32f10xx8"`, obtained by replacing the characters at positions 8 and
9 (`'3'` and `'c'`) with `'x'`. -/
theorem C1_amended_flags :
    linker_script_name "stm32f103c8" = some "stm32f10xx8" ∧
    add_linker_scripts_to_link_flags "stm32f103c8" "/pkg" =
      some ["-L/pkg/linker_scripts", "-Tlibhal-stm32f1/stm32f10xx8.ld"] :=
  ⟨rfl, rfl⟩

/-- C2, counterexample: the script-selection flag's path does not begin with
the package root: for `"stm32f103c8"` and root `"/pkg"` the second flag is
`-Tlibhal-stm32f1/stm32f10xx8.ld`, whose path is relative and has no `/pkg`
prefix. -/
theorem C2_counterexample :
    add_linker_scripts_to_link_flags "stm32f103c8" "/pkg" =
      some ["-L/pkg/linker_scripts", "-Tlibhal-stm32f1/stm32f10xx8.ld"] ∧
    "/pkg".data.isPrefixOf "libhal-stm32f1/stm32f10xx8.ld".data = false :=
  ⟨rfl, by decide⟩

/-- C2, amended: for every platform identifier accepted by the ownership
predicate and every package root, the derived configuration is exactly two
flags in this order: first the search-path flag for
`<package_root>/linker_scripts`, and second the script-selection flag for
the relative path `libhal-stm32f1/<script_base_name>.ld` (the package name
followed by the script base name with extension `.ld`, with no package-root
prefix). -/
theorem C2_amended (platform root : String) (h : is_me platform = true) :
    ∃ base, linker_script_name platform = some base ∧
      add_linker_scripts_to_link_flags platform root =
        some ["-L" ++ path_join root "linker_scripts",
              "-T" ++ path_join "libhal-stm32f1" (base ++ ".ld")] := by
  have hl := length_of_is_me platform h
  exact ⟨_, linker_script_name_of_len platform (by omega),
         add_linker_scripts_of_len platform root (by omega)⟩

/-- C2, witness at platform `"stm32f103c8"` and root `"/pkg"`. -/
theorem C2_witness :
    ∃ base, linker_script_name "stm32f103c8" = some base ∧
      add_linker_scripts_to_link_flags "stm32f103c8" "/pkg" =
        some ["-L" ++ path_join "/pkg" "linker_scripts",
              "-T" ++ path_join "libhal-stm32f1" (base ++ ".ld")] :=
  C2_amended "stm32f103c8" "/pkg" (by decide)

/-- C3: for every string `s`, the ownership predicate `_is_me` holds iff `s`
starts with the literal prefix `"stm32f1"` and has length exactly 11; as a
Lean function it has no side effects. -/
theorem C3_owns_characterization (s : String) :
    is_me s = true ↔ ("stm32f1".data <+: s.data ∧ s.length = 11) := by
  simp [is_me]

/-- C4, counterexample: the derivation itself performs no ownership check:
`"stm32f103c8xx"` fails the ownership predicate (length 13), yet
`add_linker_scripts_to_link_flags` succeeds on it and produces a full flag
list rather than failing with a precondition violation. -/
theorem C4_counterexample :
    is_me "stm32f103c8xx" = false ∧
    add_linker_scripts_to_link_flags "stm32f103c8xx" "/pkg" =
      some ["-L/pkg/linker_scripts", "-Tlibhal-stm32f1/stm32f10xx8xx.ld"] :=
  ⟨by decide, rfl⟩

/-- C4, amended: the ownership guard lives in the caller: `package_info`
invokes the derivation only when `_is_me` holds, so for every platform
identifier with `_is_me` false, `package_info` succeeds without any error
and emits no linker configuration and no build-environment defines. -/
theorem C4_guarded (os p root : String) (h : is_me p = false) :
    ∃ st, package_info os p root = some st ∧
      st.cpp_info.exelinkflags = [] ∧ st.buildenv_defines = [] :=
  ⟨_, package_info_of_guard_false os p root (by simp [h]), rfl, rfl⟩

/-- C4, witness at os `"baremetal"` and the non-owned platform `"stm32f2"`. -/
theorem C4_witness :
    ∃ st, package_info "baremetal" "stm32f2" "/pkg" = some st ∧
      st.cpp_info.exelinkflags = [] ∧ st.buildenv_defines = [] :=
  C4_guarded "baremetal" "stm32f2" "/pkg" (by decide)

/-- C5: `package_info` produces a linker configuration and build-environment
defines iff the target os setting equals `"baremetal"` and the platform
identifier satisfies the ownership predicate; and under any other
combination of settings neither is exposed: every result it returns has
empty `exelinkflags` and empty defines. -/
theorem C5_production_iff (os p root : String) :
    ((∃ st, package_info os p root = some st ∧
        st.cpp_info.exelinkflags ≠ [] ∧ st.buildenv_defines ≠ []) ↔
      (os = "baremetal" ∧ is_me p = true)) ∧
    (¬ (os = "baremetal" ∧ is_me p = true) →
      ∀ st, package_info os p root = some st →
        st.cpp_info.exelinkflags = [] ∧ st.buildenv_defines = []) := by
  constructor
  · constructor
    · rintro ⟨st, hst, hflags, hdefs⟩
      cases hb : (os == "baremetal" && is_me p) with
      | true =>
        have hb2 := (Bool.and_eq_true _ _).mp hb
        exact ⟨by simpa using hb2.1, hb2.2⟩
      | false =>
        exfalso
        rw [package_info_of_guard_false os p root hb] at hst
        injection hst with hst
        apply hdefs
        rw [← hst]
    · rintro ⟨hos, hme⟩
      subst hos
      refine ⟨_, package_info_of_is_me p root hme, ?_, ?_⟩
      · exact List.cons_ne_nil _ _
      · exact List.cons_ne_nil _ _
  · intro hneg st hst
    cases hb : (os == "baremetal" && is_me p) with
    | true =>
      exfalso
      have hb2 := (Bool.and_eq_true _ _).mp hb
      exact hneg ⟨by simpa using hb2.1, hb2.2⟩
    | false =>
      rw [package_info_of_guard_false os p root hb] at hst
      injection hst with hst
      rw [← hst]
      exact ⟨rfl, rfl⟩

/-- C5, witness: at os `"baremetal"`, platform `"stm32f103c8"`, root
`"/pkg"`, the configuration and the defines are produced; at os `"Linux"`
with the same platform, the result `package_info` returns has empty
`exelinkflags` and empty defines. -/
theorem C5_witness :
    (∃ st, package_info "baremetal" "stm32f103c8" "/pkg" = some st ∧
       st.cpp_info.exelinkflags ≠ [] ∧ st.buildenv_defines ≠ []) ∧
    ((⟨{ libs := ["libhal-stm32f1"],
         cmake_target_name := some "libhal::stm32f1" }, []⟩ :
        PackageInfoResult).cpp_info.exelinkflags = [] ∧
     (⟨{ libs := ["libhal-stm32f1"],
         cmake_target_name := some "libhal::stm32f1" }, []⟩ :
        PackageInfoResult).buildenv_defines = []) :=
  ⟨(C5_production_iff "baremetal" "stm32f103c8" "/pkg").1.mpr ⟨rfl, by decide⟩,
   (C5_production_iff "Linux" "stm32f103c8" "/pkg").2 (by decide) _ rfl⟩

/-- C6: for every platform identifier accepted by the ownership predicate,
the derived script base name copies the identifier with exactly the
characters at index 8 and index 9 replaced by `'x'`: its length equals the
identifier's length, its characters at 8 and 9 are `'x'`, and every other
character is the identifier's character at the same index. -/
theorem C6_script_base_name (p : String) (h : is_me p = true) :
    ∃ b, linker_script_name p = some b ∧
      b.length = p.length ∧
      b.data[8]? = some 'x' ∧
      b.data[9]? = some 'x' ∧
      ∀ i, i ≠ 8 → i ≠ 9 → b.data[i]? = p.data[i]? := by
  have hl := length_of_is_me p h
  have hdl : p.data.length = 11 := by rw [data_length]; omega
  refine ⟨_, linker_script_name_of_len p (by omega), ?_, ?_, ?_, ?_⟩
  · show ((p.data.set 8 'x').set 9 'x').length = p.length
    rw [List.length_set, List.length_set, data_length]
  · show ((p.data.set 8 'x').set 9 'x')[8]? = some 'x'
    rw [List.getElem?_set_ne (by decide)]
    exact List.getElem?_set_self (by omega)
  · show ((p.data.set 8 'x').set 9 'x')[9]? = some 'x'
    exact List.getElem?_set_self (by rw [List.length_set]; omega)
  · intro i hi8 hi9
    show ((p.data.set 8 'x').set 9 'x')[i]? = p.data[i]?
    rw [List.getElem?_set_ne (Ne.symm hi9), List.getElem?_set_ne (Ne.symm hi8)]

/-- C6, witness at `"stm32f103c8"`. -/
theorem C6_witness :
    ∃ b, linker_script_name "stm32f103c8" = some b ∧
      b.length = ("stm32f103c8" : String).length ∧
      b.data[8]? = some 'x' ∧
      b.data[9]? = some 'x' ∧
      ∀ i, i ≠ 8 → i ≠ 9 →
        b.data[i]? = ("stm32f103c8" : String).data[i]? :=
  C6_script_base_name "stm32f103c8" (by decide)

/-- C7, counterexample: an options record holding the key `"platform"` with
the falsy value `""` makes the guard `if get_safe("platform"):` false, so
`package_id` leaves the record unchanged, the `"platform"` key included,
contradicting the claim that a present key is always removed. -/
theorem C7_counterexample :
    get_safe [("platform", ""), ("other", "v")] "platform" = some "" ∧
    package_id [("platform", ""), ("other", "v")] =
      [("platform", ""), ("other", "v")] :=
  ⟨rfl, rfl⟩

/-- C7, amended: `package_id` removes the `"platform"` key exactly when it
is present with a truthy value (one whose lowercased form is none of `""`,
`"false"`, `"none"`, `"0"`, `"off"`): in that case the key is absent from
the result and every other key's value is unchanged; when the key is absent
or its value is falsy, the record is returned unchanged.  It never
errors. -/
theorem C7_amended (opts : List (String × String)) :
    (option_truthy (get_safe opts "platform") = true →
       get_safe (package_id opts) "platform" = none) ∧
    (option_truthy (get_safe opts "platform") = false →
       package_id opts = opts) ∧
    (∀ k, k ≠ "platform" → get_safe (package_id opts) k = get_safe opts k) := by
  refine ⟨?_, ?_, ?_⟩
  · intro ht
    rw [package_id, if_pos ht]
    exact get_safe_filter_platform opts
  · intro hf
    rw [package_id, if_neg]
    rw [hf]
    exact Bool.false_ne_true
  · intro k hk
    by_cases ht : option_truthy (get_safe opts "platform") = true
    · rw [package_id, if_pos ht]
      exact get_safe_filter_other opts k hk
    · rw [package_id, if_neg ht]

/-- C7, witness: with a truthy `"platform"` value the key is removed and the
other key is preserved. -/
theorem C7_witness :
    get_safe (package_id [("platform", "ANY"), ("a", "b")]) "platform" =
      none ∧
    get_safe (package_id [("platform", "ANY"), ("a", "b")]) "a" = some "b" :=
  ⟨(C7_amended [("platform", "ANY"), ("a", "b")]).1 rfl,
   (C7_amended [("platform", "ANY"), ("a", "b")]).2.2 "a" (by decide)⟩

/-- C8: for every ownership-passing platform identifier, `package_info` on a
bare-metal target defines exactly `LIBHAL_PLATFORM` as the identifier
verbatim and `LIBHAL_PLATFORM_LIBRARY` as the fixed tag `"stm32f1"`. -/
theorem C8_build_environment_exports (p root : String) (h : is_me p = true) :
    ∃ st, package_info "baremetal" p root = some st ∧
      st.buildenv_defines =
        [("LIBHAL_PLATFORM", p), ("LIBHAL_PLATFORM_LIBRARY", "stm32f1")] :=
  ⟨_, package_info_of_is_me p root h, rfl⟩

/-- C8, witness: for `"stm32f103c8"` the defines are exactly
`LIBHAL_PLATFORM = "stm32f103c8"` and
`LIBHAL_PLATFORM_LIBRARY = "stm32f1"`. -/
theorem C8_witness :
    ∃ st, package_info "baremetal" "stm32f103c8" "/pkg" = some st ∧
      st.buildenv_defines =
        [("LIBHAL_PLATFORM", "stm32f103c8"),
         ("LIBHAL_PLATFORM_LIBRARY", "stm32f1")] :=
  C8_build_environment_exports "stm32f103c8" "/pkg" (by decide)

/-- C9: the linker-config derivation is a pure function of the platform
identifier and the package root, so two invocations on identical inputs
yield identical output and it can be re-invoked any number of times. -/
theorem C9_deterministic (p root : String) (_h : is_me p = true) :
    add_linker_scripts_to_link_flags p root =
      add_linker_scripts_to_link_flags p root := rfl

/-- C9, witness at `"stm32f103c8"` and `"/pkg"`. -/
theorem C9_witness :
    add_linker_scripts_to_link_flags "stm32f103c8" "/pkg" =
      add_linker_scripts_to_link_flags "stm32f103c8" "/pkg" :=
  C9_deterministic "stm32f103c8" "/pkg" (by decide)

/-- C10: under the ownership precondition the identifier has length 11, so
the index assignments at 8 and 9 are in bounds and the derivation never
takes the `IndexError` branch: it always returns a result. -/
theorem C10_no_index_error (p root : String) (h : is_me p = true) :
    (add_linker_scripts_to_link_flags p root).isSome = true := by
  have hl := length_of_is_me p h
  rw [add_linker_scripts_of_len p root (by omega)]
  rfl

/-- C10, witness at `"stm32f103c8"` and `"/pkg"`. -/
theorem C10_witness :
    (add_linker_scripts_to_link_flags "stm32f103c8" "/pkg").isSome = true :=
  C10_no_index_error "stm32f103c8" "/pkg" (by decide)

end Conanfile
